import Mathlib

/-!
Verification of the bootloader firmware-flashing workflow.

The Python sources are embedded shallowly as executable Lean functions:

* `flashCmdTargets` embeds `FlashCommand._targets`
  (src/bootloader/commands/flash.py).  The Python code aliases the
  module-level list `cfg.mcuTargets` when the requested target is `all`
  and `list.remove` mutates the aliased list in place, so the embedding
  threads the configuration list explicitly and returns the (possibly
  mutated) configuration next to the computed plan.
* `callFlashTool` embeds `BaseFlashCommand._call_flash_tool`
  (src/bootloader/commands/base_flash_command.py) as a function of a
  subprocess stub: a map from attempt index to the outcome of that
  subprocess run.
* `setTunnelMode` embeds the polling loop of `set_tunnel_mode`
  (src/bootloader/utilities/system.py) as a function of a connection
  stub: a map from query index to the reported device state.
* `downloadFirmware`, `buildFirmwareFile`, `firmwareFileName` embed the
  artifact-resolution code of
  src/bootloader/commands/download_firmware.py and
  src/bootloader/commands/flash_microcontroller.py over an explicit
  file-system state (the list of existing paths) and an abstract store
  primitive (the S3 download call, which may or may not create the
  file).
* `flashSequence` embeds the per-target settle-delay choreography of
  `FlashMicrocontrollerCommand._flash` as an event trace.
-/

namespace Bootloader

/-! ## Configuration (src/bootloader/utilities/config.py) -/

/-- `cfg.mcuTargets` from src/bootloader/utilities/config.py. -/
def mcuTargets : List String := ["habs", "ex", "re", "mn"]

/-- `cfg.fwExtensions` from src/bootloader/utilities/config.py, a dict
lookup returning `none` on a missing key. -/
def fwExtensions (t : String) : Option String :=
  if t = "habs" then some "hex"
  else if t = "ex" then some "cyacd"
  else if t = "re" then some "cyacd"
  else if t = "mn" then some "dfu"
  else none

/-- `os.environ` HOME is host dependent; modelled as a fixed marker string. -/
def homeEnv : String := "$HOME"

/-- `cfg.cacheDir`. -/
def cacheDir : String := homeEnv ++ "/.dephy/bootloader"

/-- `cfg.firmwareDir`. -/
def firmwareDir : String := cacheDir ++ "/firmware"

/-- `cfg.firmwareBucket`. -/
def firmwareBucket : String :=
  "https://dephy-firmware.s3.us-east-2.amazonaws.com/"

/-! ## FlashPlan construction (`FlashCommand._targets`,
src/bootloader/commands/flash.py lines 174-191)

The Python code is

    targets = [self.argument("target")]
    if self.argument("target") == "all":
        targets = cfg.mcuTargets          -- aliases the config list
    if not self.option("force-habs"):
        if not self._device.hasHabs and "habs" in targets:
            targets.remove("habs")        -- mutates the alias in place
    return targets

The embedding returns the computed plan together with the configuration
list as it stands after the call: when `requested = "all"` the plan IS
the configuration list, so a removal also rewrites the configuration. -/

def flashCmdTargets (cfgTargets : List String) (requested : String)
    (hasHabs forceHabs : Bool) : List String × List String :=
  let targets := if requested = "all" then cfgTargets else [requested]
  let targets2 :=
    if forceHabs = false ∧ hasHabs = false ∧ "habs" ∈ targets then
      targets.erase "habs"
    else targets
  (targets2, if requested = "all" then targets2 else cfgTargets)

/-! ## Flash-tool invocation (`BaseFlashCommand._call_flash_tool`,
src/bootloader/commands/base_flash_command.py lines 69-84; an identical
copy lives in `FlashMicrocontrollerCommand._call_flash_tool`)

The Python code is

    for _ in range(self._nRetries):            -- nRetries = 5
        try:
            proc = sub.run(self._flashCmd, capture_output=False,
                           check=True, timeout=360)
        except sub.CalledProcessError:
            continue                            -- non-zero exit: retry
        except sub.TimeoutExpired:
            self.line("Timeout.")
            sys.exit(1)                         -- timeout: no retry
        if proc.returncode == 0:
            break
    if proc.returncode != 0:
        self.line("Error.")
        sys.exit(1)

With `check=True`, a non-zero exit raises inside `sub.run`, so `proc`
is only ever bound by a run whose exit code is 0.  If every attempt
exits non-zero, the loop exhausts its range and the final
`proc.returncode` reference raises UnboundLocalError; the
`self.line("Error."); sys.exit(1)` lines are unreachable.  On
`TimeoutExpired`, `subprocess.run` has already killed the child and
drained its output before re-raising (documented CPython behaviour;
`FlashCommand.handle` in src/bootloader/commands/flash.py lines
140-147 performs the same kill-and-drain explicitly).

The subprocess is abstracted as a stub mapping the attempt index to
that run's outcome. -/

/-- Outcome of one subprocess run of the vendor flash tool. -/
inductive ToolOutcome
  | exitCode (code : Nat)
  | timeout
deriving DecidableEq

/-- Observable events of `_call_flash_tool`: spawning an attempt,
killing a hung child, draining its output. -/
inductive ToolEv
  | spawn
  | kill
  | drain
deriving DecidableEq

/-- How `_call_flash_tool` ends.  The source never constructs
`FlashFailedError` on this path; the constructor `flashFailed` (the
exception class of src/bootloader/exceptions/exceptions.py, which
carries the command vector) is present so the spec claim about it can
be stated against the code. -/
inductive FlashResult
  | ok
  | timeoutExit
  | flashFailed (cmd : List String)
  | unboundLocal
deriving DecidableEq

/-- The attempts made, the way the call ended, and the event trace. -/
structure InvokeOut where
  attempts : Nat
  result : FlashResult
  events : List ToolEv
deriving DecidableEq

/-- `BaseFlashCommand._nRetries`. -/
def nRetries : Nat := 5

/-- The `timeout=360` argument of `sub.run`. -/
def toolTimeoutSeconds : Nat := 360

/-- The retry loop of `_call_flash_tool`: `fuel` is the number of loop
iterations remaining, `i` the number of attempts already made. -/
def callFlashToolAux (stub : Nat → ToolOutcome) : Nat → Nat → InvokeOut
  | 0, i => ⟨i, FlashResult.unboundLocal, []⟩
  | fuel + 1, i =>
    match stub i with
    | ToolOutcome.timeout =>
        ⟨i + 1, FlashResult.timeoutExit,
         [ToolEv.spawn, ToolEv.kill, ToolEv.drain]⟩
    | ToolOutcome.exitCode 0 => ⟨i + 1, FlashResult.ok, [ToolEv.spawn]⟩
    | ToolOutcome.exitCode (_ + 1) =>
        let r := callFlashToolAux stub fuel (i + 1)
        ⟨r.attempts, r.result, ToolEv.spawn :: r.events⟩

/-- `BaseFlashCommand._call_flash_tool`. -/
def callFlashTool (stub : Nat → ToolOutcome) : InvokeOut :=
  callFlashToolAux stub nRetries 0

/-! ## Per-target settle delays (`FlashMicrocontrollerCommand._flash`,
src/bootloader/commands/flash_microcontroller.py lines 203-237)

Each branch of `_flash` is embedded as the trace of its effects:
sleeps, closing the serial connection, deleting the device object, and
running the flash tool. -/

/-- One effect of `FlashMicrocontrollerCommand._flash`. -/
inductive FlashEv
  | sleep (seconds : Nat)
  | close
  | delDevice
  | tool
deriving BEq, DecidableEq

/-- The effect trace of `FlashMicrocontrollerCommand._flash` for each
target, read off the corresponding branch of the source. -/
def flashSequence (target : String) : List FlashEv :=
  if target = "mn" then
    [FlashEv.close, FlashEv.delDevice, FlashEv.sleep 3, FlashEv.sleep 10,
     FlashEv.tool]
  else if target = "ex" then
    [FlashEv.sleep 2, FlashEv.close, FlashEv.sleep 2, FlashEv.tool,
     FlashEv.sleep 20]
  else if target = "re" then
    [FlashEv.sleep 3, FlashEv.close, FlashEv.tool]
  else if target = "habs" then
    [FlashEv.close, FlashEv.sleep 6, FlashEv.tool, FlashEv.sleep 20]
  else []

/-- Total seconds slept in a trace. -/
def sleepSum : List FlashEv → Nat
  | [] => 0
  | FlashEv.sleep n :: r => n + sleepSum r
  | _ :: r => sleepSum r

/-- Seconds slept before the connection is closed. -/
def preCloseSleep (t : List FlashEv) : Nat :=
  sleepSum (t.takeWhile (fun e => e != FlashEv.close))

/-- Seconds slept after the connection is closed and before the flash
tool runs. -/
def postCloseSleep (t : List FlashEv) : Nat :=
  sleepSum
    ((((t.dropWhile (fun e => e != FlashEv.close)).drop 1).takeWhile
      (fun e => e != FlashEv.tool)))

/-- Seconds slept after the flash tool has run. -/
def postToolSleep (t : List FlashEv) : Nat :=
  sleepSum ((t.dropWhile (fun e => e != FlashEv.tool)).drop 1)

/-! ## Serial handshake (`set_tunnel_mode`,
src/bootloader/utilities/system.py lines 48-98; the loop of
src/bootloader/utilities/system_utils.py lines 72-150 is identical)

The polling loop of the Python source is

    wait_step = 1
    state = fxe.FX_FAILURE.value
    while timeout > 0 and state != fxe.FX_SUCCESS.value:
        if timeout % 5 == 0:
            try:
                device.activate_bootloader(target)
            except (IOError, ValueError):
                pass                       -- send errors suppressed
        sleep(wait_step)
        timeout -= wait_step
        try:
            state = device.is_bootloader_activated()
        except ValueError as err:
            raise RuntimeError from err    -- protocol error: fatal
        except IOError as err:
            pass                           -- query error suppressed

The device is abstracted as a stub mapping the query index (0-based)
to what `is_bootloader_activated` does on that call.  The embedding
records whether the final state equals FX_SUCCESS, the number of
one-second wait steps slept, the remaining-timeout values at which the
activation command was (re)sent, and whether the loop aborted on the
fatal ValueError path. -/

/-- What one `is_bootloader_activated` call does: report a state
value, raise a suppressed IOError, or raise the fatal ValueError. -/
inductive QueryResult
  | state (s : Nat)
  | ioerr
  | valerr
deriving DecidableEq

/-- `fxe.FX_SUCCESS.value` and `fxe.FX_FAILURE.value` of the external
flexsea enums: two distinct values. -/
def fxSuccess : Nat := 0

/-- See `fxSuccess`. -/
def fxFailure : Nat := 1

/-- Observable outcome of `set_tunnel_mode`. -/
structure ActResult where
  ok : Bool
  steps : Nat
  sends : List Nat
  fatal : Bool
deriving DecidableEq

/-- The remaining-timeout values in `(T - k, T]` that are multiples of
the 5-second re-issue interval, in the order the loop visits them:
exactly the iterations, among the first `k` executed, at which the
activation command is (re)sent. -/
def sendSchedule (T k : Nat) : List Nat :=
  ((List.range k).map (fun i => T - i)).filter (fun r => r % 5 == 0)

/-- The polling loop of `set_tunnel_mode`: fuel is the remaining
timeout, `st` the current state value, `qIdx` the next query index. -/
def setTunnelModeAux (query : Nat → QueryResult) :
    Nat → Nat → Nat → ActResult
  | 0, st, _ => ⟨st == fxSuccess, 0, [], false⟩
  | t + 1, st, qIdx =>
    if st = fxSuccess then ⟨true, 0, [], false⟩
    else
      let sendNow := if (t + 1) % 5 = 0 then [t + 1] else []
      match query qIdx with
      | QueryResult.valerr => ⟨false, 1, sendNow, true⟩
      | QueryResult.ioerr =>
          let r := setTunnelModeAux query t st (qIdx + 1)
          ⟨r.ok, r.steps + 1, sendNow ++ r.sends, r.fatal⟩
      | QueryResult.state s =>
          let r := setTunnelModeAux query t s (qIdx + 1)
          ⟨r.ok, r.steps + 1, sendNow ++ r.sends, r.fatal⟩

/-- `set_tunnel_mode` for a given connection stub and timeout. -/
def setTunnelMode (query : Nat → QueryResult) (timeout : Nat) :
    ActResult :=
  setTunnelModeAux query timeout fxFailure 0

/-! ## Artifact resolution

Two embeddings, both over an explicit file system (the list of
existing paths) and an abstract store primitive (the S3 download call,
a function from file system to file system that may or may not create
the requested file, since boto3 does not reliably surface failures).

`downloadFirmware` embeds `DownloadFirmwareCommand.handle` together
with `_build_firmware_file`, `_firmware_exists` and
`_download_firmware` (src/bootloader/commands/download_firmware.py).

`buildFirmwareFile` embeds
`FlashMicrocontrollerCommand._build_firmware_file`
(src/bootloader/commands/flash_microcontroller.py lines 102-141),
without the manual `--file` override. -/

/-- How `DownloadFirmwareCommand` ends. -/
inductive DownloadOutcome
  | ok
  | s3DownloadError (bucket file dest : String)
  | unknownMCU (mcu : String)
deriving DecidableEq

/-- Outcome, resulting file system, and number of store calls made. -/
structure DownloadResult where
  outcome : DownloadOutcome
  fs : List String
  storeCalls : Nat
deriving DecidableEq

/-- The extension table inlined in
`DownloadFirmwareCommand._build_firmware_file`; an unsupported
microcontroller raises `UnknownMCUError`, modelled as `none`. -/
def dfExt (mcu : String) : Option String :=
  if mcu = "mn" then some "dfu"
  else if mcu = "ex" ∨ mcu = "re" then some "cyacd"
  else if mcu = "habs" then some "hex"
  else none

/-- The file name built by
`DownloadFirmwareCommand._build_firmware_file`. -/
def dfFileName (fwVer devType mcu hwVer : String) : Option String :=
  (dfExt mcu).map (fun ext =>
    devType ++ "_rigid-" ++ hwVer ++ "_" ++ mcu ++ "_firmware-" ++ fwVer
      ++ "." ++ ext)

/-- `DownloadFirmwareCommand.handle`: build the name, check the cache,
on a miss call the store and re-check existence, failing with
`S3DownloadError` if the file is still absent. -/
def downloadFirmware (fs : List String) (store : List String → List String)
    (fwVer devType mcu hwVer : String) : DownloadResult :=
  match dfFileName fwVer devType mcu hwVer with
  | none => ⟨DownloadOutcome.unknownMCU mcu, fs, 0⟩
  | some fwFile =>
    let destDir := firmwareDir ++ "/" ++ fwVer ++ "/" ++ devType
    let path := destDir ++ "/" ++ fwFile
    if path ∈ fs then ⟨DownloadOutcome.ok, fs, 0⟩
    else
      let fs2 := store fs
      if path ∈ fs2 then ⟨DownloadOutcome.ok, fs2, 1⟩
      else ⟨DownloadOutcome.s3DownloadError firmwareBucket fwFile destDir,
            fs2, 1⟩

/-- The file name built by
`FlashMicrocontrollerCommand._build_firmware_file`: the extension
comes from the configuration table, and for the manage target on a
non-actpack (legacy, chiral) device the side is required and appended
before the extension; a missing side raises, modelled as `none`. -/
def firmwareFileName (name hw target fw : String) (side : Option String) :
    Option String :=
  match fwExtensions target with
  | none => none
  | some ext =>
    if target = "mn" ∧ ¬ name = "actpack" then
      match side with
      | none => none
      | some sd =>
          some (name ++ "_rigid-" ++ hw ++ "_" ++ target ++ "_firmware-"
            ++ fw ++ "_side-" ++ sd ++ "." ++ ext)
    else
      some (name ++ "_rigid-" ++ hw ++ "_" ++ target ++ "_firmware-" ++ fw
        ++ "." ++ ext)

/-- Resolved path (if any), resulting file system, and number of store
calls made. -/
structure ResolveResult where
  path : Option String
  fs : List String
  storeCalls : Nat
deriving DecidableEq

/-- `FlashMicrocontrollerCommand._build_firmware_file`: on a cache hit
the destination is returned with no store call; on a miss the store is
called once and the destination returned without a caller-side
re-check. -/
def buildFirmwareFile (fs : List String) (store : List String → List String)
    (name hw fw target : String) (side : Option String) : ResolveResult :=
  match firmwareFileName name hw target fw side with
  | none => ⟨none, fs, 0⟩
  | some fwFile =>
    let dest := firmwareDir ++ "/" ++ fwFile
    if dest ∈ fs then ⟨some dest, fs, 0⟩
    else ⟨some dest, store fs, 1⟩

end Bootloader

namespace Bootloader

/-! ## Theorems about FlashPlan construction -/

/-- Claim C1 counterexample: requesting the explicit single target
`habs` on a device that does not report a Habs board, without the
force flag, yields the empty plan, not the one-element plan `[habs]`:
the explicit request IS silently dropped. -/
theorem c1_counterexample :
    (flashCmdTargets mcuTargets "habs" false false).1 = [] ∧
    (flashCmdTargets mcuTargets "habs" false false).1 ≠ ["habs"] := by
  decide

/-- Claim C1 (amended): requesting `all` yields `[habs, ex, re, mn]`
when the device reports a Habs board or the force flag is set and
`[ex, re, mn]` otherwise; an explicit single target other than `habs`
always yields the one-element plan; an explicit `habs` request yields
`[habs]` only when the device reports a Habs board or the force flag is
set, and is otherwise dropped, yielding the empty plan. -/
theorem c1_amended (t : String) (h1 : ¬ t = "all") (h2 : ¬ t = "habs")
    (hasHabs forceHabs : Bool) :
    (flashCmdTargets mcuTargets "all" true forceHabs).1
      = ["habs", "ex", "re", "mn"] ∧
    (flashCmdTargets mcuTargets "all" hasHabs true).1
      = ["habs", "ex", "re", "mn"] ∧
    (flashCmdTargets mcuTargets "all" false false).1 = ["ex", "re", "mn"] ∧
    (flashCmdTargets mcuTargets t hasHabs forceHabs).1 = [t] ∧
    (flashCmdTargets mcuTargets "habs" hasHabs forceHabs).1
      = (if hasHabs || forceHabs then ["habs"] else []) := by
  refine ⟨?_, ?_, ?_, ?_, ?_⟩
  · cases forceHabs <;> decide
  · cases hasHabs <;> decide
  · decide
  · have hmem : ¬ ("habs" ∈ [t]) := by
      intro hm
      exact h2 (List.mem_singleton.mp hm).symm
    simp only [flashCmdTargets, if_neg h1]
    rw [if_neg (fun hc => hmem hc.2.2)]
  · cases hasHabs <;> cases forceHabs <;> decide

/-- Claim C1 witness: instantiation of `c1_amended` at the explicit
target `ex` on a device without a Habs board. -/
theorem c1_amended_witness :
    (flashCmdTargets mcuTargets "ex" false false).1 = ["ex"] :=
  (c1_amended "ex" (by decide) (by decide) false false).2.2.2.1

/-- Claim C10: expanding `all` aliases the module-level configuration
list, so dropping `habs` for a device without a Habs board rewrites the
configuration itself; a later expansion of `all` in the same process,
even for a device that reports a Habs board (with or without the force
flag), yields a plan without `habs`, and the configuration no longer
equals its initial value. -/
theorem c10_alias_mutation :
    flashCmdTargets mcuTargets "all" false false
      = (["ex", "re", "mn"], ["ex", "re", "mn"]) ∧
    (flashCmdTargets
        (flashCmdTargets mcuTargets "all" false false).2 "all" true false).1
      = ["ex", "re", "mn"] ∧
    (flashCmdTargets
        (flashCmdTargets mcuTargets "all" false false).2 "all" true true).1
      = ["ex", "re", "mn"] ∧
    (flashCmdTargets mcuTargets "all" false false).2 ≠ mcuTargets := by
  decide

/-! ## Theorems about the flash-tool retry loop -/

/-- If every attempt exits non-zero, the loop exhausts its fuel with
`proc` never bound, making `i + fuel` attempts in total. -/
theorem callFlashToolAux_allFail (stub : Nat → ToolOutcome)
    (hf : ∀ i, ∃ m, stub i = ToolOutcome.exitCode (m + 1)) :
    ∀ fuel i, callFlashToolAux stub fuel i
      = ⟨i + fuel, FlashResult.unboundLocal,
         List.replicate fuel ToolEv.spawn⟩ := by
  intro fuel
  induction fuel with
  | zero => intro i; simp [callFlashToolAux]
  | succ n ih =>
    intro i
    obtain ⟨m, hm⟩ := hf i
    simp only [callFlashToolAux, hm, ih (i + 1), List.replicate_succ]
    exact congrArg (fun a => InvokeOut.mk a _ _) (by omega)

/-- If the first `k` attempts exit non-zero and attempt `k + 1` exits
zero, the loop returns normally after exactly `k + 1` attempts. -/
theorem callFlashToolAux_firstSuccess (stub : Nat → ToolOutcome) :
    ∀ k fuel i, k < fuel →
    (∀ j, j < k → ∃ m, stub (i + j) = ToolOutcome.exitCode (m + 1)) →
    stub (i + k) = ToolOutcome.exitCode 0 →
    callFlashToolAux stub fuel i
      = ⟨i + k + 1, FlashResult.ok, List.replicate (k + 1) ToolEv.spawn⟩ := by
  intro k
  induction k with
  | zero =>
    intro fuel i hk hpre hs
    match fuel, hk with
    | fuel + 1, _ =>
      rw [Nat.add_zero] at hs
      simp [callFlashToolAux, hs]
  | succ m ih =>
    intro fuel i hk hpre hs
    match fuel, hk with
    | fuel + 1, hk =>
      obtain ⟨c, hc⟩ := hpre 0 (Nat.succ_pos m)
      rw [Nat.add_zero] at hc
      have hs2 : stub (i + 1 + m) = ToolOutcome.exitCode 0 := by
        have heq : i + 1 + m = i + (m + 1) := by omega
        rw [heq]; exact hs
      have hpre2 : ∀ j, j < m →
          ∃ c2, stub (i + 1 + j) = ToolOutcome.exitCode (c2 + 1) := by
        intro j hj
        have heq : i + 1 + j = i + (j + 1) := by omega
        rw [heq]
        exact hpre (j + 1) (by omega)
      have ihh := ih fuel (i + 1) (by omega) hpre2 hs2
      simp only [callFlashToolAux, hc, ihh, List.replicate_succ]
      exact congrArg (fun a => InvokeOut.mk a _ _) (by omega)

/-- If the first `k` attempts exit non-zero and attempt `k + 1` times
out, the call ends at attempt `k + 1`: the hung child is killed and
drained, and no further attempt is spawned. -/
theorem callFlashToolAux_firstTimeout (stub : Nat → ToolOutcome) :
    ∀ k fuel i, k < fuel →
    (∀ j, j < k → ∃ m, stub (i + j) = ToolOutcome.exitCode (m + 1)) →
    stub (i + k) = ToolOutcome.timeout →
    callFlashToolAux stub fuel i
      = ⟨i + k + 1, FlashResult.timeoutExit,
         List.replicate k ToolEv.spawn
           ++ [ToolEv.spawn, ToolEv.kill, ToolEv.drain]⟩ := by
  intro k
  induction k with
  | zero =>
    intro fuel i hk hpre hs
    match fuel, hk with
    | fuel + 1, _ =>
      rw [Nat.add_zero] at hs
      simp [callFlashToolAux, hs]
  | succ m ih =>
    intro fuel i hk hpre hs
    match fuel, hk with
    | fuel + 1, hk =>
      obtain ⟨c, hc⟩ := hpre 0 (Nat.succ_pos m)
      rw [Nat.add_zero] at hc
      have hs2 : stub (i + 1 + m) = ToolOutcome.timeout := by
        have heq : i + 1 + m = i + (m + 1) := by omega
        rw [heq]; exact hs
      have hpre2 : ∀ j, j < m →
          ∃ c2, stub (i + 1 + j) = ToolOutcome.exitCode (c2 + 1) := by
        intro j hj
        have heq : i + 1 + j = i + (j + 1) := by omega
        rw [heq]
        exact hpre (j + 1) (by omega)
      have ihh := ih fuel (i + 1) (by omega) hpre2 hs2
      simp only [callFlashToolAux, hc, ihh, List.replicate_succ,
        List.cons_append]
      exact congrArg (fun a => InvokeOut.mk a _ _) (by omega)

/-- Claim C2 counterexample: with a stub whose every run exits 1, the
call makes exactly 5 attempts but does not signal `FlashFailedError`
carrying the command vector: the loop exhausts with the `proc` local
never bound, so the post-loop `proc.returncode` check raises
UnboundLocalError instead. -/
theorem c2_counterexample :
    (callFlashTool (fun _ => ToolOutcome.exitCode 1)).attempts = 5 ∧
    (callFlashTool (fun _ => ToolOutcome.exitCode 1)).result
      ≠ FlashResult.flashFailed
          [cacheDir ++ "/tools/DfuSeCommand.exe", "-c", "-d", "--fn",
           "fw.dfu"] := by
  decide

/-- Claim C2 (amended): if every run exits non-zero without timing
out, the call makes exactly `nRetries = 5` attempts, never a 6th, and
then aborts abnormally (UnboundLocalError at the post-loop returncode
check) without constructing `FlashFailedError` and without carrying
the command vector; if the first `k` attempts exit non-zero and
attempt `k + 1 ≤ 5` exits zero, the call returns normally after
exactly `k + 1` attempts. -/
theorem c2_amended (stub stubA : Nat → ToolOutcome) (c : List String)
    (k : Nat)
    (hf : ∀ i, ∃ m, stub i = ToolOutcome.exitCode (m + 1))
    (hk : k < nRetries)
    (hpre : ∀ j, j < k → ∃ m, stubA j = ToolOutcome.exitCode (m + 1))
    (hsucc : stubA k = ToolOutcome.exitCode 0) :
    callFlashTool stub
      = ⟨nRetries, FlashResult.unboundLocal,
         List.replicate nRetries ToolEv.spawn⟩ ∧
    (callFlashTool stub).result ≠ FlashResult.flashFailed c ∧
    callFlashTool stubA
      = ⟨k + 1, FlashResult.ok, List.replicate (k + 1) ToolEv.spawn⟩ := by
  have h1 : callFlashTool stub
      = ⟨nRetries, FlashResult.unboundLocal,
         List.replicate nRetries ToolEv.spawn⟩ := by
    unfold callFlashTool
    simpa using callFlashToolAux_allFail stub hf nRetries 0
  refine ⟨h1, ?_, ?_⟩
  · rw [h1]
    simp
  · unfold callFlashTool
    have := callFlashToolAux_firstSuccess stubA k nRetries 0 hk
      (fun j hj => by simpa using hpre j hj) (by simpa using hsucc)
    simpa using this

/-- Claim C2 witness: a stub that exits 1 on the first 4 runs and 0 on
the 5th makes the call return normally after exactly 5 attempts. -/
theorem c2_amended_witness :
    callFlashTool
        (fun i => if i < 4 then ToolOutcome.exitCode 1
                  else ToolOutcome.exitCode 0)
      = ⟨5, FlashResult.ok, List.replicate 5 ToolEv.spawn⟩ :=
  (c2_amended (fun _ => ToolOutcome.exitCode 1)
    (fun i => if i < 4 then ToolOutcome.exitCode 1
              else ToolOutcome.exitCode 0)
    ["fw.dfu"] 4
    (fun _ => ⟨0, rfl⟩)
    (by decide)
    (fun j hj => ⟨0, by simp [hj]⟩)
    (by simp)).2.2

/-- Claim C3: if the first `k` attempts exit non-zero (`k + 1 ≤ 5`)
and attempt `k + 1` exceeds the 360-second budget, the call ends at
attempt `k + 1` with the timeout failure: the child is killed, its
output drained, and no further attempt is spawned, regardless of how
many retry attempts remain. -/
theorem c3_timeout_discipline (stub : Nat → ToolOutcome) (k : Nat)
    (hk : k < nRetries)
    (hpre : ∀ j, j < k → ∃ m, stub j = ToolOutcome.exitCode (m + 1))
    (ht : stub k = ToolOutcome.timeout) :
    callFlashTool stub
      = ⟨k + 1, FlashResult.timeoutExit,
         List.replicate k ToolEv.spawn
           ++ [ToolEv.spawn, ToolEv.kill, ToolEv.drain]⟩ ∧
    toolTimeoutSeconds = 360 := by
  constructor
  · unfold callFlashTool
    have := callFlashToolAux_firstTimeout stub k nRetries 0 hk
      (fun j hj => by simpa using hpre j hj) (by simpa using ht)
    simpa using this
  · rfl

/-- Claim C3 witness: a stub whose first run already times out ends
the call at attempt 1 with a kill and a drain. -/
theorem c3_timeout_discipline_witness :
    callFlashTool (fun _ => ToolOutcome.timeout)
      = ⟨1, FlashResult.timeoutExit,
         [ToolEv.spawn, ToolEv.kill, ToolEv.drain]⟩ :=
  ((c3_timeout_discipline (fun _ => ToolOutcome.timeout) 0 (by decide)
    (fun j hj => absurd hj (by omega)) rfl).1).trans (by decide)

/-! ## Theorems about the per-target settle delays -/

/-- Claim C9 counterexample: for target `mn` the code sleeps 3 and
then 10 seconds between disposing of the connection and running the
tool, 13 seconds in total, not the 10 seconds the claim states. -/
theorem c9_counterexample :
    postCloseSleep (flashSequence "mn") = 13 ∧
    postCloseSleep (flashSequence "mn") ≠ 10 := by
  decide

/-- Claim C9 (amended): the settle delays around connection close and
tool invocation are habs 0/6/20, ex 2/2/20, re 3/0/0, and for mn 0
before close, then sleeps of 3 and 10 seconds (13 in total) after the
connection object is fully disposed and before the tool runs, and 0
after; for mn no sleep occurs before the device object is deleted. -/
theorem c9_amended :
    preCloseSleep (flashSequence "habs") = 0 ∧
    postCloseSleep (flashSequence "habs") = 6 ∧
    postToolSleep (flashSequence "habs") = 20 ∧
    preCloseSleep (flashSequence "ex") = 2 ∧
    postCloseSleep (flashSequence "ex") = 2 ∧
    postToolSleep (flashSequence "ex") = 20 ∧
    preCloseSleep (flashSequence "re") = 3 ∧
    postCloseSleep (flashSequence "re") = 0 ∧
    postToolSleep (flashSequence "re") = 0 ∧
    preCloseSleep (flashSequence "mn") = 0 ∧
    postCloseSleep (flashSequence "mn") = 13 ∧
    postToolSleep (flashSequence "mn") = 0 ∧
    sleepSum ((flashSequence "mn").takeWhile
      (fun e => e != FlashEv.delDevice)) = 0 ∧
    flashSequence "mn"
      = [FlashEv.close, FlashEv.delDevice, FlashEv.sleep 3,
         FlashEv.sleep 10, FlashEv.tool] := by
  decide

/-! ## Theorems about the serial handshake -/

/-- `sendSchedule` at zero executed iterations is empty. -/
theorem sendSchedule_zero (T : Nat) : sendSchedule T 0 = [] := rfl

/-- One loop iteration peels off the remaining-timeout value `t + 1`
from the send schedule. -/
theorem sendSchedule_succ (t k : Nat) :
    sendSchedule (t + 1) (k + 1)
      = (if (t + 1) % 5 = 0 then [t + 1] else []) ++ sendSchedule t k := by
  unfold sendSchedule
  rw [List.range_succ_eq_map]
  simp only [List.map_cons, List.map_map]
  have hcomp : ((fun i => t + 1 - i) ∘ Nat.succ) = fun i => t - i := by
    funext i
    simp [Nat.succ_sub_succ]
  rw [hcomp]
  by_cases h5 : (t + 1) % 5 = 0
  · simp [List.filter_cons, h5]
  · simp [List.filter_cons, h5]

/-- Once the state reads FX_SUCCESS the loop stops at once: no further
step, send or query. -/
theorem setTunnelModeAux_success_state (query : Nat → QueryResult)
    (t qIdx : Nat) :
    setTunnelModeAux query t fxSuccess qIdx = ⟨true, 0, [], false⟩ := by
  cases t with
  | zero => simp [setTunnelModeAux]
  | succ n => simp [setTunnelModeAux]

/-- If queries `qIdx, …, qIdx + m - 1` report non-activated states and
query `qIdx + m` reports FX_SUCCESS within the remaining timeout, the
loop succeeds after exactly `m + 1` wait steps, sending at exactly the
remaining-timeout multiples of 5 among the executed iterations. -/
theorem setTunnelModeAux_firstSuccess (query : Nat → QueryResult) :
    ∀ m t st qIdx, m < t → st ≠ fxSuccess →
    (∀ j, j < m →
      ∃ s, query (qIdx + j) = QueryResult.state s ∧ s ≠ fxSuccess) →
    query (qIdx + m) = QueryResult.state fxSuccess →
    setTunnelModeAux query t st qIdx
      = ⟨true, m + 1, sendSchedule t (m + 1), false⟩ := by
  intro m
  induction m with
  | zero =>
    intro t st qIdx hm hst hpre hq
    match t, hm with
    | t + 1, _ =>
      rw [Nat.add_zero] at hq
      simp only [setTunnelModeAux, if_neg hst, hq,
        setTunnelModeAux_success_state]
      rw [sendSchedule_succ]
      simp [sendSchedule]
  | succ n ih =>
    intro t st qIdx hm hst hpre hq
    match t, hm with
    | t + 1, hm =>
      obtain ⟨s, hqs, hsns⟩ := hpre 0 (Nat.succ_pos n)
      rw [Nat.add_zero] at hqs
      have hq2 : query (qIdx + 1 + n) = QueryResult.state fxSuccess := by
        have heq : qIdx + 1 + n = qIdx + (n + 1) := by omega
        rw [heq]
        exact hq
      have hpre2 : ∀ j, j < n →
          ∃ s2, query (qIdx + 1 + j) = QueryResult.state s2
            ∧ s2 ≠ fxSuccess := by
        intro j hj
        have heq : qIdx + 1 + j = qIdx + (j + 1) := by omega
        rw [heq]
        exact hpre (j + 1) (by omega)
      have ihh := ih t s (qIdx + 1) (by omega) hsns hpre2 hq2
      simp only [setTunnelModeAux, if_neg hst, hqs, ihh]
      rw [sendSchedule_succ]

/-- If no query ever reports FX_SUCCESS and none raises the fatal
ValueError, the loop runs its full remaining timeout and fails. -/
theorem setTunnelModeAux_neverSuccess (query : Nat → QueryResult)
    (hq : ∀ j s, query j = QueryResult.state s → s ≠ fxSuccess)
    (hnv : ∀ j, query j ≠ QueryResult.valerr) :
    ∀ t st qIdx, st ≠ fxSuccess →
    setTunnelModeAux query t st qIdx
      = ⟨false, t, sendSchedule t t, false⟩ := by
  intro t
  induction t with
  | zero =>
    intro st qIdx hst
    simp [setTunnelModeAux, sendSchedule, hst]
  | succ n ih =>
    intro st qIdx hst
    cases hcase : query qIdx with
    | valerr => exact absurd hcase (hnv qIdx)
    | ioerr =>
      simp only [setTunnelModeAux, if_neg hst, hcase,
        ih st (qIdx + 1) hst]
      rw [sendSchedule_succ]
    | state s =>
      simp only [setTunnelModeAux, if_neg hst, hcase,
        ih s (qIdx + 1) (hq qIdx s hcase)]
      rw [sendSchedule_succ]

/-- Claim C4: for every timeout `T > 0`, if the first `m` state
queries report non-activated states and query `m + 1` (with
`m + 1 ≤ T`) is the first to report the activated state, then activate
succeeds after exactly `m + 1` one-second wait steps, and the
activate-bootloader command is sent exactly at the executed loop
iterations whose remaining timeout is a multiple of the 5-second
re-issue interval. -/
theorem c4_activate_success (query : Nat → QueryResult) (T m : Nat)
    (hm : m < T)
    (hpre : ∀ j, j < m →
      ∃ s, query j = QueryResult.state s ∧ s ≠ fxSuccess)
    (hsucc : query m = QueryResult.state fxSuccess) :
    setTunnelMode query T = ⟨true, m + 1, sendSchedule T (m + 1), false⟩ := by
  unfold setTunnelMode
  exact setTunnelModeAux_firstSuccess query m T fxFailure 0 hm (by decide)
    (fun j hj => by simpa using hpre j hj) (by simpa using hsucc)

/-- Claim C4 witness: with timeout 20 and a connection whose 3rd state
query is the first to report the activated state, activate succeeds
after exactly 3 wait steps, having sent the activation command only at
remaining timeout 20. -/
theorem c4_activate_success_witness :
    setTunnelMode
        (fun j => if j = 2 then QueryResult.state fxSuccess
                  else QueryResult.state fxFailure) 20
      = ⟨true, 3, [20], false⟩ :=
  (c4_activate_success
    (fun j => if j = 2 then QueryResult.state fxSuccess
              else QueryResult.state fxFailure) 20 2 (by omega)
    (fun j hj =>
      ⟨fxFailure, by have hne : j ≠ 2 := by omega
                     simp [hne], by decide⟩)
    (by simp)).trans (by decide)

/-- Claim C5: for every timeout `T > 0` and a connection that never
reports the activated state (and never hits the fatal protocol error),
activate fails after exactly `T` one-second wait steps, not earlier
and not later. -/
theorem c5_activate_timeout (query : Nat → QueryResult) (T : Nat)
    (_hT : 0 < T)
    (hq : ∀ j s, query j = QueryResult.state s → s ≠ fxSuccess)
    (hnv : ∀ j, query j ≠ QueryResult.valerr) :
    setTunnelMode query T = ⟨false, T, sendSchedule T T, false⟩ := by
  unfold setTunnelMode
  exact setTunnelModeAux_neverSuccess query hq hnv T fxFailure 0 (by decide)

/-- Claim C5 witness: with timeout 20 and a connection that always
reports the non-activated state, activate fails after exactly 20 wait
steps, having sent at remaining timeouts 20, 15, 10 and 5. -/
theorem c5_activate_timeout_witness :
    setTunnelMode (fun _ => QueryResult.state fxFailure) 20
      = ⟨false, 20, [20, 15, 10, 5], false⟩ :=
  (c5_activate_timeout (fun _ => QueryResult.state fxFailure) 20
    (by decide)
    (fun j s hs => by
      injection hs with h1
      rw [← h1]
      decide)
    (fun j hv => QueryResult.noConfusion hv)).trans (by decide)

/-! ## Theorems about artifact resolution -/

/-- Claim C6: when the computed destination does not exist locally,
the command delegates to the store exactly once and re-checks the
destination afterwards; if the file is still absent the command fails
with the download error (the `S3DownloadError` of the source, the
spec's FirmwareNotFound signal) instead of reporting success. -/
theorem c6_post_download_verification (fs : List String)
    (store : List String → List String)
    (fwVer devType mcu hwVer fwFile : String)
    (hname : dfFileName fwVer devType mcu hwVer = some fwFile)
    (habsent :
      firmwareDir ++ "/" ++ fwVer ++ "/" ++ devType ++ "/" ++ fwFile ∉ fs)
    (hstill :
      firmwareDir ++ "/" ++ fwVer ++ "/" ++ devType ++ "/" ++ fwFile
        ∉ store fs) :
    downloadFirmware fs store fwVer devType mcu hwVer
      = ⟨DownloadOutcome.s3DownloadError firmwareBucket fwFile
           (firmwareDir ++ "/" ++ fwVer ++ "/" ++ devType),
         store fs, 1⟩ := by
  simp only [downloadFirmware, hname]
  rw [if_neg habsent, if_neg hstill]

/-- Claim C6 witness: on an empty file system with a store that
creates nothing, requesting the manage firmware for an actpack fails
with the download error after one store call. -/
theorem c6_post_download_verification_witness :
    downloadFirmware [] (fun l => l) "9.1.0" "actpack" "mn" "4.1B"
      = ⟨DownloadOutcome.s3DownloadError firmwareBucket
           "actpack_rigid-4.1B_mn_firmware-9.1.0.dfu"
           (firmwareDir ++ "/9.1.0/actpack"), [], 1⟩ :=
  (c6_post_download_verification [] (fun l => l) "9.1.0" "actpack" "mn"
    "4.1B" "actpack_rigid-4.1B_mn_firmware-9.1.0.dfu"
    (by decide) (by simp) (by simp)).trans (by decide)

/-- Claim C7: when the computed destination already exists locally,
resolution returns that path with zero store calls and leaves the file
system unchanged, so resolving twice in succession returns the same
path both times and makes no store call on the second resolution
either. -/
theorem c7_resolve_idempotent (fs : List String)
    (store : List String → List String)
    (name hw fw target fwFile : String) (side : Option String)
    (hname : firmwareFileName name hw target fw side = some fwFile)
    (hmem : firmwareDir ++ "/" ++ fwFile ∈ fs) :
    buildFirmwareFile fs store name hw fw target side
      = ⟨some (firmwareDir ++ "/" ++ fwFile), fs, 0⟩ ∧
    buildFirmwareFile
        (buildFirmwareFile fs store name hw fw target side).fs store
        name hw fw target side
      = ⟨some (firmwareDir ++ "/" ++ fwFile), fs, 0⟩ := by
  have h1 : buildFirmwareFile fs store name hw fw target side
      = ⟨some (firmwareDir ++ "/" ++ fwFile), fs, 0⟩ := by
    simp only [buildFirmwareFile, hname]
    rw [if_pos hmem]
  refine ⟨h1, ?_⟩
  rw [h1]
  exact h1

/-- Claim C7 witness: with the actpack manage firmware already cached,
resolution returns the cached path with zero store calls. -/
theorem c7_resolve_idempotent_witness :
    buildFirmwareFile
        [firmwareDir ++ "/actpack_rigid-4.1B_mn_firmware-9.1.0.dfu"]
        (fun l => "downloaded" :: l) "actpack" "4.1B" "9.1.0" "mn" none
      = ⟨some (firmwareDir ++ "/actpack_rigid-4.1B_mn_firmware-9.1.0.dfu"),
         [firmwareDir ++ "/actpack_rigid-4.1B_mn_firmware-9.1.0.dfu"],
         0⟩ :=
  ((c7_resolve_idempotent
    [firmwareDir ++ "/actpack_rigid-4.1B_mn_firmware-9.1.0.dfu"]
    (fun l => "downloaded" :: l) "actpack" "4.1B" "9.1.0" "mn"
    "actpack_rigid-4.1B_mn_firmware-9.1.0.dfu" none
    (by decide) (by decide)).1).trans (by decide)

/-- Claim C8 counterexample: for the manage target on a non-actpack
device the computed file name carries a `_side-{side}` component, so
it does not equal the claimed side-less template. -/
theorem c8_counterexample :
    firmwareFileName "exo" "4.1B" "mn" "9.1.0" (some "left")
      = some "exo_rigid-4.1B_mn_firmware-9.1.0_side-left.dfu" ∧
    firmwareFileName "exo" "4.1B" "mn" "9.1.0" (some "left")
      ≠ some "exo_rigid-4.1B_mn_firmware-9.1.0.dfu" := by
  decide

/-- Claim C8 (amended): the computed file name is
deviceType_rigid-hardwareVersion_target_firmware-firmwareVersion.ext
with ext from the fixed table habs to hex, ex and re to cyacd, mn to
dfu — except that for the manage target on a non-actpack device the
side component `_side-{side}` is inserted before the extension; in
particular the actpack 4.1B / 9.1.0 names for ex, re and mn are as the
claim lists them. -/
theorem c8_amended (d hw fw sd : String) (hd : ¬ d = "actpack") :
    firmwareFileName d hw "habs" fw none
      = some (d ++ "_rigid-" ++ hw ++ "_" ++ "habs" ++ "_firmware-" ++ fw
          ++ "." ++ "hex") ∧
    firmwareFileName d hw "ex" fw none
      = some (d ++ "_rigid-" ++ hw ++ "_" ++ "ex" ++ "_firmware-" ++ fw
          ++ "." ++ "cyacd") ∧
    firmwareFileName d hw "re" fw none
      = some (d ++ "_rigid-" ++ hw ++ "_" ++ "re" ++ "_firmware-" ++ fw
          ++ "." ++ "cyacd") ∧
    firmwareFileName "actpack" hw "mn" fw none
      = some ("actpack" ++ "_rigid-" ++ hw ++ "_" ++ "mn" ++ "_firmware-"
          ++ fw ++ "." ++ "dfu") ∧
    firmwareFileName d hw "mn" fw (some sd)
      = some (d ++ "_rigid-" ++ hw ++ "_" ++ "mn" ++ "_firmware-" ++ fw
          ++ "_side-" ++ sd ++ "." ++ "dfu") ∧
    firmwareFileName "actpack" "4.1B" "ex" "9.1.0" none
      = some "actpack_rigid-4.1B_ex_firmware-9.1.0.cyacd" ∧
    firmwareFileName "actpack" "4.1B" "re" "9.1.0" none
      = some "actpack_rigid-4.1B_re_firmware-9.1.0.cyacd" ∧
    firmwareFileName "actpack" "4.1B" "mn" "9.1.0" none
      = some "actpack_rigid-4.1B_mn_firmware-9.1.0.dfu" := by
  have hhabs : fwExtensions "habs" = some "hex" := by decide
  have hex : fwExtensions "ex" = some "cyacd" := by decide
  have hre : fwExtensions "re" = some "cyacd" := by decide
  have hmn : fwExtensions "mn" = some "dfu" := by decide
  refine ⟨?_, ?_, ?_, ?_, ?_, by decide, by decide, by decide⟩
  · simp only [firmwareFileName, hhabs]
    rw [if_neg (fun hc => absurd hc.1 (by decide))]
  · simp only [firmwareFileName, hex]
    rw [if_neg (fun hc => absurd hc.1 (by decide))]
  · simp only [firmwareFileName, hre]
    rw [if_neg (fun hc => absurd hc.1 (by decide))]
  · simp only [firmwareFileName, hmn]
    simp
  · simp only [firmwareFileName, hmn]
    simp [hd]

/-- Claim C8 witness: instantiation of `c8_amended` for a habsolute
artifact on a non-actpack device. -/
theorem c8_amended_witness :
    firmwareFileName "exo" "4.1B" "habs" "9.1.0" none
      = some "exo_rigid-4.1B_habs_firmware-9.1.0.hex" :=
  ((c8_amended "exo" "4.1B" "9.1.0" "left" (by decide)).1).trans
    (by decide)

end Bootloader
